import Mathlib

/-!
Verification of the merge-request review pipeline in `code_review_gitlab.py`:
the remote change-set client (`fetch_mr_changes`, `fetch_raw_file`), the
context assembler (`load_merge_request_data`), the context formatter
(`format_documents_for_context`), the verdict extractor
(`parse_markdown_response`) and the orchestrator (`run_mr_review`).

HTTP effects are embedded by passing the response environment explicitly
(a function from request parameters to `HttpResponse`) and logging which
raw-file fetches happen.  Python strings are modelled as Lean `String`
(ASCII-faithful: whitespace, upper/lower case and the regex character
classes are modelled on the ASCII range the program manipulates).
-/

namespace GitlabReview

/-- An HTTP response as observed by the script: status code and body text. -/
structure HttpResponse where
  status : Nat
  body : String
deriving DecidableEq, Repr

/-- Python `\s` on ASCII: space, tab, newline, carriage return, vertical tab,
form feed. -/
def isPySpace (c : Char) : Bool :=
  c == ' ' || c == '\t' || c == '\n' || c == '\r' || c == '\x0b' || c == '\x0c'

/-- Python `str.upper()` restricted to ASCII: uppercase each character. -/
def pyUpper (s : List Char) : List Char :=
  s.map Char.toUpper

/-- Python `str.strip()` on ASCII: drop whitespace from both ends. -/
def pyStrip (s : List Char) : List Char :=
  ((s.dropWhile isPySpace).reverse.dropWhile isPySpace).reverse

/-- Case-insensitive character comparison, as `re.IGNORECASE` does on ASCII. -/
def ciCharEq (p c : Char) : Bool :=
  p.toLower == c.toLower

/-- Match the literal pattern `pat` case-insensitively at the head of `s`.
On success return the matched text characters (case preserved, as
`match.group` reports them) and the remainder of `s`. -/
def matchCI : List Char → List Char → Option (List Char × List Char)
  | [], s => some ([], s)
  | _ :: _, [] => none
  | p :: ps, c :: cs =>
    if ciCharEq p c then
      match matchCI ps cs with
      | some (m, r) => some (c :: m, r)
      | none => none
    else none

def markerChars : List Char := "FINAL_STATUS:".data

def passedChars : List Char := "PASSED".data

def failedChars : List Char := "FAILED".data

/-- Attempt the regex `FINAL_STATUS:\s*(PASSED|FAILED)` (with `re.IGNORECASE`)
anchored at the start of `s`.  The greedy `\s*` consumes the maximal
whitespace run (no backtracking can help: `P`/`F` match no whitespace
character).  Returns `(group0, group1)`: the whole matched substring and the
status word as it appears in the text. -/
def matchMarkerAt (s : List Char) : Option (List Char × List Char) :=
  match matchCI markerChars s with
  | none => none
  | some (m1, rest1) =>
    let ws := rest1.takeWhile isPySpace
    let rest2 := rest1.dropWhile isPySpace
    match matchCI passedChars rest2 with
    | some (m2, _) => some (m1 ++ ws ++ m2, m2)
    | none =>
      match matchCI failedChars rest2 with
      | some (m2, _) => some (m1 ++ ws ++ m2, m2)
      | none => none

/-- Python `re.search`: try the anchored match at each position left to
right and return the leftmost match. -/
def searchMarker : List Char → Option (List Char × List Char)
  | [] => none
  | c :: cs =>
    match matchMarkerAt (c :: cs) with
    | some r => some r
    | none => searchMarker cs

/-- One fuel-indexed step list for `removeAll`; fuel `s.length` always
suffices because every step consumes at least one character. -/
def removeAllFuel (pat : List Char) : Nat → List Char → List Char
  | _, [] => []
  | 0, s => s
  | fuel + 1, c :: cs =>
    if pat.isPrefixOf (c :: cs) && !pat.isEmpty then
      removeAllFuel pat fuel ((c :: cs).drop pat.length)
    else
      c :: removeAllFuel pat fuel cs

/-- Python `s.replace(pat, "")`: delete every non-overlapping occurrence of
`pat`, scanning left to right. -/
def removeAll (pat s : List Char) : List Char :=
  removeAllFuel pat s.length s

/-- Substring test on character lists, as Python `in` on strings. -/
def isSubstr : List Char → List Char → Bool
  | pat, [] => pat.isEmpty
  | pat, c :: cs => pat.isPrefixOf (c :: cs) || isSubstr pat cs

def criticalChars : List Char := "CRITICAL BUG".data

def securityChars : List Char := "SECURITY VULNERABILITY".data

/-- The structured outcome built by the verdict extractor. -/
structure ReviewOutcome where
  is_ok : Bool
  report : String
deriving DecidableEq, Repr

/-- The verdict extractor `parse_markdown_response`: search for the `FINAL_STATUS` marker; if found,
the verdict is the uppercased status word compared with `PASSED` and the
report is the text with every occurrence of the matched substring removed
and then stripped; if absent, fall back to the two keyword triggers checked
against an uppercased copy of the text, defaulting to a pass. -/
def parse_markdown_response (text : String) : ReviewOutcome :=
  match searchMarker text.data with
  | some (g0, g1) =>
    { is_ok := pyUpper g1 == passedChars
      report := String.mk (pyStrip (removeAll g0 text.data)) }
  | none =>
    if isSubstr criticalChars (pyUpper text.data) || isSubstr securityChars (pyUpper text.data) then
      { is_ok := false, report := text }
    else
      { is_ok := true, report := text }

/-- One entry of the change-set file list, as returned by the `/changes`
endpoint. -/
structure FileChange where
  new_path : String
  old_path : Option String
  deleted_file : Bool
  diff : String
deriving DecidableEq, Repr

/-- The decoded body of a successful `/changes` response. -/
structure MRData where
  source_branch : String
  changes : List FileChange
deriving Repr

/-- A per-file context unit (langchain `Document` with `metadata["source"]`). -/
structure Document where
  page_content : String
  source : String
deriving DecidableEq, Repr

/-- The client call `fetch_mr_changes`: on a non-200 status raise
`Exception(f"Failed to fetch MR: {status} - {text}")`; otherwise decode the
JSON body. -/
def fetch_mr_changes (response : HttpResponse) (decode : String → MRData) :
    Except String MRData :=
  if response.status != 200 then
    Except.error ("Failed to fetch MR: " ++ toString response.status ++ " - " ++ response.body)
  else
    Except.ok (decode response.body)

/-- The client call `fetch_raw_file`: the raw-file GET for `file_path` at `ref` through the
response environment `http`; a non-200 status becomes the sentinel string
instead of an error. -/
def fetch_raw_file (http : String → String → HttpResponse) (file_path ref : String) : String :=
  let response := http file_path ref
  if response.status != 200 then
    "[Error fetching file content: " ++ toString response.status ++ "]"
  else
    response.body

/-- Python truthiness of the `Optional[List[str]]` filter: `None` and the
empty list are falsy. -/
def filterTruthy : Option (List String) → Bool
  | none => false
  | some exts => !exts.isEmpty

/-- Python `str.endswith`. -/
def pyEndsWith (s suffix : String) : Bool :=
  suffix.data.isSuffixOf s.data

/-- Python `any(file_path.endswith(ext) for ext in file_filter)`. -/
def anyEndsWith (file_path : String) (exts : List String) : Bool :=
  exts.any (fun ext => pyEndsWith file_path ext)

/-- The combined document body built for one retained file. -/
def combined_content (file_path diff_content full_content : String) : String :=
  "FILENAME: " ++ file_path ++ "\n" ++
  "--- BEGIN DIFF (CHANGES) ---\n" ++ diff_content ++ "\n--- END DIFF ---\n\n" ++
  "--- BEGIN FULL FILE CONTENT (CONTEXT) ---\n" ++ full_content ++ "\n--- END FULL FILE CONTENT ---\n"

/-- The loop body of `load_merge_request_data`: walk the change list in
order; skip filter misses and deleted files; fetch the full content for each
retained file and emit its document.  The second component logs the paths
for which a raw-file fetch was issued, in order. -/
def load_changes_loop (http : String → String → HttpResponse) (source_branch : String)
    (file_filter : Option (List String)) : List FileChange → List Document × List String
  | [] => ([], [])
  | change :: changes =>
    let file_path := change.new_path
    if filterTruthy file_filter && !(anyEndsWith file_path (file_filter.getD [])) then
      load_changes_loop http source_branch file_filter changes
    else if change.deleted_file then
      load_changes_loop http source_branch file_filter changes
    else
      let diff_content := change.diff
      let full_content := fetch_raw_file http file_path source_branch
      let rest := load_changes_loop http source_branch file_filter changes
      ({ page_content := combined_content file_path diff_content full_content
         source := file_path } :: rest.1,
       file_path :: rest.2)

/-- The assembler `load_merge_request_data`: fetch the change-set metadata (propagating its
error), then assemble one document per retained change.  The second
component is the log of raw-file fetches issued. -/
def load_merge_request_data (mr_response : HttpResponse) (decode : String → MRData)
    (http : String → String → HttpResponse) (file_filter : Option (List String)) :
    Except String (List Document) × List String :=
  match fetch_mr_changes mr_response decode with
  | Except.error e => (Except.error e, [])
  | Except.ok mr_data =>
    let r := load_changes_loop http mr_data.source_branch file_filter mr_data.changes
    (Except.ok r.1, r.2)

/-- Python `sep.join(strings)`. -/
def pyJoin (sep : String) : List String → String
  | [] => ""
  | [s] => s
  | s :: rest => s ++ sep ++ pyJoin sep rest

/-- The formatter `format_documents_for_context`: join the document bodies
with a single newline. -/
def format_documents_for_context (docs : List Document) : String :=
  pyJoin "\n" (docs.map (fun d => d.page_content))

/-- The observable outcome of one orchestrator run. -/
inductive RunResult where
  | noMatchingFiles : RunResult
  | reviewed : ReviewOutcome → RunResult
deriving DecidableEq, Repr

/-- Run log: the outcome, the contexts submitted to the model, and the
report written to the report file (if any). -/
structure RunLog where
  result : RunResult
  modelCalls : List String
  reportWritten : Option String
deriving DecidableEq, Repr

/-- The decision skeleton of `run_mr_review` after context assembly: with no
documents, print the no-matching-files message and return; otherwise format
the context, invoke the model once and parse its reply, writing the report. -/
def run_mr_review (documents : List Document) (model : String → String) : RunLog :=
  if documents.isEmpty then
    { result := RunResult.noMatchingFiles, modelCalls := [], reportWritten := none }
  else
    let mr_context := format_documents_for_context documents
    let result := parse_markdown_response (model mr_context)
    { result := RunResult.reviewed result
      modelCalls := [mr_context]
      reportWritten := some result.report }

/-- The retained-change predicate in the spec's words: not marked deleted,
and when a non-empty filter is given the new path ends with at least one of
the filter's suffixes. -/
def keepSpec (file_filter : Option (List String)) (c : FileChange) : Bool :=
  !c.deleted_file &&
    match file_filter with
    | none => true
    | some exts => exts.isEmpty || exts.any (fun ext => pyEndsWith c.new_path ext)

/-- The formatter output in the spec's words: the concatenation of the
bodies in order, separated by a single newline. -/
def specConcatBodies : List Document → String
  | [] => ""
  | d :: rest => rest.foldl (fun acc x => acc ++ "\n" ++ x.page_content) d.page_content

/-! ## Helper lemmas -/

theorem str_data_append (a b : String) : (a ++ b).data = a.data ++ b.data := by
  cases a; cases b; rfl

theorem strAppend_assoc (a b c : String) : a ++ b ++ c = a ++ (b ++ c) := by
  cases a; cases b; cases c
  exact congrArg String.mk (List.append_assoc _ _ _)

theorem isPrefixOf_append_self (l t : List Char) : l.isPrefixOf (l ++ t) = true := by
  induction l with
  | nil => rw [List.nil_append]; cases t <;> rfl
  | cons c cs ih => simp [List.isPrefixOf, ih]

theorem isSubstr_nil_pat (s : List Char) : isSubstr [] s = true := by
  induction s with
  | nil => rfl
  | cons c cs ih => simp [isSubstr, List.isPrefixOf]

theorem isSubstr_append : ∀ (a pat b : List Char), isSubstr pat (a ++ (pat ++ b)) = true := by
  intro a pat b
  induction a with
  | nil =>
    cases pat with
    | nil => exact isSubstr_nil_pat b
    | cons p ps =>
      show isSubstr (p :: ps) ((p :: ps) ++ b) = true
      rw [List.cons_append]
      simp [isSubstr, isPrefixOf_append_self]
  | cons c cs ih =>
    rw [List.cons_append]
    simp [isSubstr, ih]

theorem isSubstr_data_of_parts (pat a b : String) :
    isSubstr pat.data (a ++ pat ++ b).data = true := by
  cases pat with
  | mk ps =>
    cases a with
    | mk as =>
      cases b with
      | mk bs =>
        show isSubstr ps ((as ++ ps) ++ bs) = true
        rw [List.append_assoc]
        exact isSubstr_append as ps bs

theorem matchMarkerAt_nil : matchMarkerAt [] = none := by decide

theorem searchMarker_cons (c : Char) (cs : List Char) :
    searchMarker (c :: cs) =
      match matchMarkerAt (c :: cs) with
      | some r => some r
      | none => searchMarker cs := rfl

/-- `searchMarker` returns the match at the leftmost matching position. -/
theorem searchMarker_of_first :
    ∀ (i : Nat) (s : List Char) (r : List Char × List Char),
      matchMarkerAt (s.drop i) = some r →
      (∀ j, j < i → matchMarkerAt (s.drop j) = none) →
      searchMarker s = some r := by
  intro i
  induction i with
  | zero =>
    intro s r h _
    cases s with
    | nil =>
      rw [List.drop_nil, matchMarkerAt_nil] at h
      exact absurd h (by simp)
    | cons c cs =>
      rw [List.drop_zero] at h
      rw [searchMarker_cons, h]
  | succ n ih =>
    intro s r h hnone
    cases s with
    | nil =>
      rw [List.drop_nil, matchMarkerAt_nil] at h
      exact absurd h (by simp)
    | cons c cs =>
      have h0 : matchMarkerAt (c :: cs) = none := by
        have := hnone 0 (Nat.succ_pos n)
        rwa [List.drop_zero] at this
      rw [searchMarker_cons, h0]
      refine ih cs r ?_ ?_
      · rwa [List.drop_succ_cons] at h
      · intro j hj
        have := hnone (j + 1) (Nat.succ_lt_succ hj)
        rwa [List.drop_succ_cons] at this

/-- The retained-change predicate of the spec coincides with the pair of
skip conditions of the loop. -/
theorem keep_iff (f : Option (List String)) (c : FileChange) :
    keepSpec f c = true ↔
      ((filterTruthy f && !(anyEndsWith c.new_path (f.getD []))) = false ∧
        c.deleted_file = false) := by
  cases f with
  | none =>
    simp [keepSpec, filterTruthy]
  | some exts =>
    cases exts with
    | nil => simp [keepSpec, filterTruthy, anyEndsWith]
    | cons e es =>
      have h1 : keepSpec (some (e :: es)) c =
          (!c.deleted_file && anyEndsWith c.new_path (e :: es)) := by
        simp [keepSpec, anyEndsWith]
      have h2 : filterTruthy (some (e :: es)) = true := by
        simp [filterTruthy]
      simp only [h1, h2, Option.getD_some]
      cases ha : anyEndsWith c.new_path (e :: es) <;>
        cases hd : c.deleted_file <;> simp [ha, hd]

theorem loop_cons_keep (http : String → String → HttpResponse) (ref : String)
    (f : Option (List String)) (change : FileChange) (changes : List FileChange)
    (h1 : (filterTruthy f && !(anyEndsWith change.new_path (f.getD []))) = false)
    (h2 : change.deleted_file = false) :
    load_changes_loop http ref f (change :: changes) =
      ({ page_content := combined_content change.new_path change.diff
           (fetch_raw_file http change.new_path ref)
         source := change.new_path } :: (load_changes_loop http ref f changes).1,
       change.new_path :: (load_changes_loop http ref f changes).2) := by
  simp [load_changes_loop, h1, h2]

theorem loop_cons_skip_filter (http : String → String → HttpResponse) (ref : String)
    (f : Option (List String)) (change : FileChange) (changes : List FileChange)
    (h1 : (filterTruthy f && !(anyEndsWith change.new_path (f.getD []))) = true) :
    load_changes_loop http ref f (change :: changes) = load_changes_loop http ref f changes := by
  simp [load_changes_loop, h1]

theorem loop_cons_skip_deleted (http : String → String → HttpResponse) (ref : String)
    (f : Option (List String)) (change : FileChange) (changes : List FileChange)
    (h1 : (filterTruthy f && !(anyEndsWith change.new_path (f.getD []))) = false)
    (h2 : change.deleted_file = true) :
    load_changes_loop http ref f (change :: changes) = load_changes_loop http ref f changes := by
  simp [load_changes_loop, h1, h2]

theorem foldl_sep_pull (xs : List String) :
    ∀ p a : String,
      xs.foldl (fun acc x => acc ++ "\n" ++ x) (p ++ a) =
        p ++ xs.foldl (fun acc x => acc ++ "\n" ++ x) a := by
  induction xs with
  | nil => intro p a; rfl
  | cons x xs ih =>
    intro p a
    rw [List.foldl_cons, List.foldl_cons, strAppend_assoc p a "\n",
      strAppend_assoc p (a ++ "\n") x]
    exact ih p (a ++ "\n" ++ x)

theorem pyJoin_cons_eq_foldl :
    ∀ (xs : List String) (a : String),
      pyJoin "\n" (a :: xs) = xs.foldl (fun acc x => acc ++ "\n" ++ x) a := by
  intro xs
  induction xs with
  | nil => intro a; rfl
  | cons x xs ih =>
    intro a
    show a ++ "\n" ++ pyJoin "\n" (x :: xs) = (x :: xs).foldl _ a
    rw [ih x, List.foldl_cons]
    exact (foldl_sep_pull xs (a ++ "\n") x).symm

/-! ## Claim theorems -/

/-- C1: for every reply text containing a `FINAL_STATUS` marker (the search
finds a match with whole substring `g0` and status word `g1`), the extractor
returns `is_ok` true exactly when the status word uppercases to `PASSED`,
and the report is the original text with the matched marker substring
removed and surrounding whitespace trimmed; in particular on
`"Looks fine.\nFINAL_STATUS: PASSED"` it yields `is_ok = true` and report
`"Looks fine."`. -/
theorem parse_marker_found :
    (∀ (text : String) (g0 g1 : List Char),
      searchMarker text.data = some (g0, g1) →
      (parse_markdown_response text).is_ok = (pyUpper g1 == passedChars) ∧
      (parse_markdown_response text).report = String.mk (pyStrip (removeAll g0 text.data))) ∧
    parse_markdown_response "Looks fine.\nFINAL_STATUS: PASSED" =
      { is_ok := true, report := "Looks fine." } := by
  constructor
  · intro text g0 g1 h
    unfold parse_markdown_response
    rw [h]
    exact ⟨rfl, rfl⟩
  · decide

/-- Witness for C1 at the lowercase-status reply
`"Found issue.\nFINAL_STATUS: failed"`. -/
theorem parse_marker_found_witness :
    searchMarker "Found issue.\nFINAL_STATUS: failed".data =
      some ("FINAL_STATUS: failed".data, "failed".data) ∧
    (parse_markdown_response "Found issue.\nFINAL_STATUS: failed").is_ok =
      (pyUpper "failed".data == passedChars) ∧
    (parse_markdown_response "Found issue.\nFINAL_STATUS: failed").report =
      String.mk (pyStrip (removeAll "FINAL_STATUS: failed".data
        "Found issue.\nFINAL_STATUS: failed".data)) :=
  ⟨by decide, parse_marker_found.1 _ _ _ (by decide)⟩

/-- C2: when no marker is found, `is_ok` is false exactly when the
uppercased copy of the text contains `CRITICAL BUG` or
`SECURITY VULNERABILITY` (true otherwise, fail-open), and the report is the
full original text unmodified. -/
theorem parse_no_marker_fallback :
    ∀ text : String, searchMarker text.data = none →
      (parse_markdown_response text).report = text ∧
      (parse_markdown_response text).is_ok =
        !(isSubstr criticalChars (pyUpper text.data) ||
          isSubstr securityChars (pyUpper text.data)) := by
  intro text h
  unfold parse_markdown_response
  rw [h]
  cases hc : (isSubstr criticalChars (pyUpper text.data) ||
      isSubstr securityChars (pyUpper text.data)) <;> simp [hc]

/-- Witness for C2 at a marker-free reply containing
`SECURITY VULNERABILITY`. -/
theorem parse_no_marker_fallback_witness :
    searchMarker "There is a SECURITY VULNERABILITY here.".data = none ∧
    (parse_markdown_response "There is a SECURITY VULNERABILITY here.").report =
      "There is a SECURITY VULNERABILITY here." ∧
    (parse_markdown_response "There is a SECURITY VULNERABILITY here.").is_ok =
      !(isSubstr criticalChars (pyUpper "There is a SECURITY VULNERABILITY here.".data) ||
        isSubstr securityChars (pyUpper "There is a SECURITY VULNERABILITY here.".data)) :=
  ⟨by decide, parse_no_marker_fallback _ (by decide)⟩

/-- C3: the sequence of source paths of the emitted units equals, in order,
the new paths of the input changes retained by the spec predicate (not
deleted; and, under a non-empty filter, path ends with one of the filter's
suffixes — an empty or absent filter retains every non-deleted change). -/
theorem assembler_paths :
    ∀ (http : String → String → HttpResponse) (ref : String)
      (file_filter : Option (List String)) (changes : List FileChange),
      (load_changes_loop http ref file_filter changes).1.map (fun d => d.source) =
        (changes.filter (fun c => keepSpec file_filter c)).map (fun c => c.new_path) := by
  intro http ref f changes
  induction changes with
  | nil => rfl
  | cons c cs ih =>
    by_cases hk : keepSpec f c = true
    · obtain ⟨h1, h2⟩ := (keep_iff f c).mp hk
      rw [loop_cons_keep http ref f c cs h1 h2, List.map_cons, ih,
        List.filter_cons_of_pos (by exact hk), List.map_cons]
    · have hk' : keepSpec f c = false := Bool.eq_false_iff.mpr hk
      rw [List.filter_cons_of_neg (by simp [hk'])]
      cases hcond : (filterTruthy f && !(anyEndsWith c.new_path (f.getD []))) with
      | true => rw [loop_cons_skip_filter http ref f c cs hcond, ih]
      | false =>
        have hdel : c.deleted_file = true := by
          by_contra hdf
          exact hk ((keep_iff f c).mpr ⟨hcond, Bool.eq_false_iff.mpr hdf⟩)
        rw [loop_cons_skip_deleted http ref f c cs hcond hdel, ih]

/-- C4 (amended): `fetch_raw_file` returns the raw body exactly on HTTP
status 200 and the sentinel `[Error fetching file content: <status>]` on
every other status (including 2xx statuses other than 200); a 404 on a
retained file's fetch yields a unit whose body contains the 404 sentinel
while assembly of the remaining changes continues unchanged. -/
theorem fetch_raw_file_status_behavior :
    (∀ (http : String → String → HttpResponse) (file_path ref : String),
      (http file_path ref).status = 200 →
        fetch_raw_file http file_path ref = (http file_path ref).body) ∧
    (∀ (http : String → String → HttpResponse) (file_path ref : String),
      (http file_path ref).status ≠ 200 →
        fetch_raw_file http file_path ref =
          "[Error fetching file content: " ++ toString (http file_path ref).status ++ "]") ∧
    (∀ (http : String → String → HttpResponse) (ref : String)
        (file_filter : Option (List String)) (change : FileChange)
        (changes : List FileChange),
      keepSpec file_filter change = true →
      (http change.new_path ref).status = 404 →
      ∃ d : Document,
        load_changes_loop http ref file_filter (change :: changes) =
          (d :: (load_changes_loop http ref file_filter changes).1,
           change.new_path :: (load_changes_loop http ref file_filter changes).2) ∧
        isSubstr "[Error fetching file content: 404]".data d.page_content.data = true) := by
  refine ⟨?_, ?_, ?_⟩
  · intro http file_path ref h
    unfold fetch_raw_file
    simp [h]
  · intro http file_path ref h
    unfold fetch_raw_file
    simp [h]
  · intro http ref f change changes hkeep h404
    obtain ⟨h1, h2⟩ := (keep_iff f change).mp hkeep
    refine ⟨_, loop_cons_keep http ref f change changes h1 h2, ?_⟩
    have hful : fetch_raw_file http change.new_path ref =
        "[Error fetching file content: 404]" := by
      simp only [fetch_raw_file]
      rw [h404]
      rw [if_pos (show ((404 : Nat) != 200) = true by decide)]
      decide
    show isSubstr "[Error fetching file content: 404]".data
      (combined_content change.new_path change.diff
        (fetch_raw_file http change.new_path ref)).data = true
    rw [hful]
    exact isSubstr_data_of_parts "[Error fetching file content: 404]"
      ("FILENAME: " ++ change.new_path ++ "\n" ++
        "--- BEGIN DIFF (CHANGES) ---\n" ++ change.diff ++ "\n--- END DIFF ---\n\n" ++
        "--- BEGIN FULL FILE CONTENT (CONTEXT) ---\n")
      "\n--- END FULL FILE CONTENT ---\n"

/-- Counterexample to C4 as stated: HTTP 204 is a success (2xx) status, yet
`fetch_raw_file` returns the sentinel instead of the raw response body,
because the code tests `status != 200` rather than the 2xx class. -/
theorem fetch_raw_file_2xx_counterexample :
    fetch_raw_file (fun _ _ => { status := 204, body := "hello" }) "app.py" "main" =
      "[Error fetching file content: 204]" ∧
    200 ≤ 204 ∧ 204 < 300 ∧
    fetch_raw_file (fun _ _ => { status := 204, body := "hello" }) "app.py" "main" ≠ "hello" := by
  refine ⟨by decide, by decide, by decide, by decide⟩

/-- Witness for the amended C4: instances of all three parts at concrete
responses (200 returns the body, 500 returns the sentinel, and a 404 on a
retained file yields a sentinel-carrying unit). -/
theorem fetch_raw_file_status_behavior_witness :
    fetch_raw_file (fun _ _ => { status := 200, body := "body" }) "a.py" "main" = "body" ∧
    fetch_raw_file (fun _ _ => { status := 500, body := "oops" }) "a.py" "main" =
      "[Error fetching file content: " ++ toString (500 : Nat) ++ "]" ∧
    (∃ d : Document,
      load_changes_loop (fun _ _ => { status := 404, body := "" }) "main" (some [".py"])
          ({ new_path := "a.py", old_path := none, deleted_file := false, diff := "" } :: []) =
        (d :: (load_changes_loop (fun _ _ => { status := 404, body := "" }) "main"
            (some [".py"]) []).1,
         "a.py" :: (load_changes_loop (fun _ _ => { status := 404, body := "" }) "main"
            (some [".py"]) []).2) ∧
      isSubstr "[Error fetching file content: 404]".data d.page_content.data = true) :=
  ⟨fetch_raw_file_status_behavior.1 _ "a.py" "main" rfl,
   fetch_raw_file_status_behavior.2.1 _ "a.py" "main" (by decide),
   fetch_raw_file_status_behavior.2.2 _ "main" (some [".py"])
     { new_path := "a.py", old_path := none, deleted_file := false, diff := "" } []
     (by decide) rfl⟩

/-- C5: whenever the change-set metadata fetch returns a non-200 status, the
loader propagates an error carrying the HTTP status and response body, and
no raw-file fetch is issued (the fetch log is empty). -/
theorem mr_fetch_error_aborts :
    ∀ (mr_response : HttpResponse) (decode : String → MRData)
      (http : String → String → HttpResponse) (file_filter : Option (List String)),
      mr_response.status ≠ 200 →
      load_merge_request_data mr_response decode http file_filter =
        (Except.error ("Failed to fetch MR: " ++ toString mr_response.status ++ " - " ++
          mr_response.body), []) := by
  intro mr decode http f h
  unfold load_merge_request_data fetch_mr_changes
  simp [h]

/-- Witness for C5 at an HTTP 401 metadata response. -/
theorem mr_fetch_error_aborts_witness :
    load_merge_request_data { status := 401, body := "unauthorized" }
        (fun _ => { source_branch := "", changes := [] })
        (fun _ _ => { status := 200, body := "" }) none =
      (Except.error "Failed to fetch MR: 401 - unauthorized", []) := by
  have h := mr_fetch_error_aborts { status := 401, body := "unauthorized" }
    (fun _ => { source_branch := "", changes := [] })
    (fun _ _ => { status := 200, body := "" }) none (by decide)
  rw [h]
  have hs : ("Failed to fetch MR: " ++
      toString ({ status := 401, body := "unauthorized" } : HttpResponse).status ++ " - " ++
      ({ status := 401, body := "unauthorized" } : HttpResponse).body) =
      "Failed to fetch MR: 401 - unauthorized" := by decide
  rw [hs]

/-- C6: every retained change contributes exactly one unit whose body is the
filename header line, the diff section between its BEGIN/END markers (empty
diffs included), and the full-content section between its BEGIN/END markers
holding the fetched content or the error sentinel; the remaining changes
are assembled unchanged after it. -/
theorem unit_body_composition :
    ∀ (http : String → String → HttpResponse) (ref : String)
      (file_filter : Option (List String)) (change : FileChange)
      (changes : List FileChange),
      keepSpec file_filter change = true →
      load_changes_loop http ref file_filter (change :: changes) =
        ({ page_content :=
             "FILENAME: " ++ change.new_path ++ "\n" ++
             "--- BEGIN DIFF (CHANGES) ---\n" ++ change.diff ++ "\n--- END DIFF ---\n\n" ++
             "--- BEGIN FULL FILE CONTENT (CONTEXT) ---\n" ++
             fetch_raw_file http change.new_path ref ++ "\n--- END FULL FILE CONTENT ---\n"
           source := change.new_path } :: (load_changes_loop http ref file_filter changes).1,
         change.new_path :: (load_changes_loop http ref file_filter changes).2) := by
  intro http ref f change changes hk
  obtain ⟨h1, h2⟩ := (keep_iff f change).mp hk
  exact loop_cons_keep http ref f change changes h1 h2

/-- Witness for C6: a retained change with an empty diff still yields a unit
with an empty diff section. -/
theorem unit_body_composition_witness :
    load_changes_loop (fun _ _ => { status := 200, body := "content" }) "main" (some [".py"])
        ({ new_path := "a.py", old_path := none, deleted_file := false, diff := "" } :: []) =
      ({ page_content := "FILENAME: a.py\n--- BEGIN DIFF (CHANGES) ---\n\n--- END DIFF ---\n\n--- BEGIN FULL FILE CONTENT (CONTEXT) ---\ncontent\n--- END FULL FILE CONTENT ---\n"
         source := "a.py" } :: [], "a.py" :: []) :=
  (unit_body_composition (fun _ _ => { status := 200, body := "content" }) "main"
    (some [".py"]) { new_path := "a.py", old_path := none, deleted_file := false, diff := "" }
    [] (by decide)).trans (by decide)

/-- C7: the formatter output is exactly the concatenation of the units'
pre-composed bodies in order, separated by a single newline, with no other
transformation (and, being a pure function, repeated calls on the same
input are byte-identical). -/
theorem format_is_newline_join :
    ∀ docs : List Document,
      format_documents_for_context docs = specConcatBodies docs ∧
      format_documents_for_context docs = format_documents_for_context docs := by
  intro docs
  refine ⟨?_, rfl⟩
  cases docs with
  | nil => rfl
  | cons d rest =>
    show pyJoin "\n" ((d :: rest).map (fun x => x.page_content)) = _
    rw [List.map_cons, pyJoin_cons_eq_foldl, List.foldl_map]
    rfl

/-- C8: with zero units the orchestrator short-circuits to the
no-matching-files outcome: the model is never invoked and no report is
written. -/
theorem empty_docs_short_circuit :
    ∀ model : String → String,
      run_mr_review [] model =
        { result := RunResult.noMatchingFiles, modelCalls := [], reportWritten := none } := by
  intro model
  rfl

/-- Counterexample to C9 as stated: a reply with no marker containing the
trigger phrase only in lowercase (the exact-case substring is absent) still
sets `is_ok = false`, because the code checks the keywords against an
uppercased copy of the text — a case-insensitive match, not a
case-sensitive one. -/
theorem fallback_case_counterexample :
    searchMarker "there is a critical bug".data = none ∧
    isSubstr "CRITICAL BUG".data "there is a critical bug".data = false ∧
    isSubstr "SECURITY VULNERABILITY".data "there is a critical bug".data = false ∧
    (parse_markdown_response "there is a critical bug").is_ok = false := by
  refine ⟨by decide, by decide, by decide, by decide⟩

/-- C9 (amended): in the no-marker branch the fallback keywords are matched
case-insensitively via an uppercased copy of the text, so the phrases in
any letter case set `is_ok = false`. -/
theorem fallback_uppercase_trigger :
    ∀ text : String, searchMarker text.data = none →
      (isSubstr criticalChars (pyUpper text.data) ||
        isSubstr securityChars (pyUpper text.data)) = true →
      (parse_markdown_response text).is_ok = false := by
  intro text h htrig
  unfold parse_markdown_response
  rw [h]
  simp [htrig]

/-- Witness for the amended C9 at a mixed-case trigger phrase. -/
theorem fallback_uppercase_trigger_witness :
    searchMarker "a Critical Bug was found".data = none ∧
    (isSubstr criticalChars (pyUpper "a Critical Bug was found".data) ||
      isSubstr securityChars (pyUpper "a Critical Bug was found".data)) = true ∧
    (parse_markdown_response "a Critical Bug was found").is_ok = false :=
  ⟨by decide, by decide, fallback_uppercase_trigger _ (by decide) (by decide)⟩

/-- C10: when several markers occur, the verdict and the removed substring
are those of the earliest match (the match at position `i` with no match at
any earlier position); only occurrences identical to that first matched
substring are removed, as the concrete two-marker reply shows: the later
conflicting `FINAL_STATUS: FAILED` marker survives in the report. -/
theorem first_marker_wins :
    (∀ (text : String) (i : Nat) (g0 g1 : List Char),
      matchMarkerAt (text.data.drop i) = some (g0, g1) →
      (∀ j, j < i → matchMarkerAt (text.data.drop j) = none) →
      parse_markdown_response text =
        { is_ok := pyUpper g1 == passedChars
          report := String.mk (pyStrip (removeAll g0 text.data)) }) ∧
    parse_markdown_response "FINAL_STATUS: PASSED two FINAL_STATUS: FAILED" =
      { is_ok := true, report := "two FINAL_STATUS: FAILED" } := by
  constructor
  · intro text i g0 g1 h hnone
    have hs := searchMarker_of_first i text.data (g0, g1) h hnone
    unfold parse_markdown_response
    rw [hs]
  · decide

/-- Witness for C10 with the earliest match at position 0. -/
theorem first_marker_wins_witness :
    parse_markdown_response "FINAL_STATUS: FAILED ok" =
      { is_ok := false, report := "ok" } :=
  (first_marker_wins.1 "FINAL_STATUS: FAILED ok" 0
    "FINAL_STATUS: FAILED".data "FAILED".data (by decide)
    (fun j hj => absurd hj (Nat.not_lt_zero j))).trans (by decide)

end GitlabReview

